import Mathlib

/-!
Shallow embedding of `src/api-request.ts` (the Box SDK request-execution
engine): the pure classifiers (`isTemporaryError`, `isRequestRetryable`,
`cleanSensitiveHeaders`), the request construction performed by `execute`,
and the callback-mode retry loop (`_handleResponse` / `_retry` / `_finish`)
as a step function on an operation state, driven by an oracle giving the
outcome of each network attempt.

Machine integers are modelled as `Nat`; JavaScript `undefined`/optional
fields as `Option`; header records as association lists.  The external
`getRetryTimeout` helper (util/exponential-backoff, randomized jitter, not
part of this file's source) is an abstract function parameter.
-/

namespace ApiRequest

/-- Message to replace removed headers with in the request (source line 105). -/
def REMOVED_HEADER_MESSAGE : String := "[REMOVED BY SDK]"

/-- Range of SERVER ERROR http status codes (source line 108). -/
def HTTP_STATUS_CODE_SERVER_ERROR_BLOCK_RANGE : Nat × Nat := (500, 599)

/-- `httpStatusCodes.INSUFFICIENT_STORAGE` from the http-status package. -/
def INSUFFICIENT_STORAGE : Nat := 507

/-- `httpStatusCodes.REQUEST_TIMEOUT` from the http-status package. -/
def REQUEST_TIMEOUT : Nat := 408

/-- `httpStatusCodes.TOO_MANY_REQUESTS` from the http-status package. -/
def TOO_MANY_REQUESTS : Nat := 429

/-- The map of HTTP status codes that can be retried (source lines 114-116),
as its characteristic function: only 408 and 429 are inserted. -/
def retryableStatusCodes (statusCode : Nat) : Bool :=
  statusCode == REQUEST_TIMEOUT || statusCode == TOO_MANY_REQUESTS

/-- Reason-phrase lookup of the external http-status package
(`httpStatusCodes[status]`), modelled for the codes evaluated here;
the message text is not load-bearing for any claim. -/
def httpStatusText (status : Nat) : String :=
  if status == 502 then "Bad Gateway"
  else if status == 503 then "Service Unavailable"
  else if status == 429 then "Too Many Requests"
  else if status == 507 then "Insufficient Storage"
  else ""

/-- Response info snapshot: status code, response headers and body.
Response header values are modelled numerically because the only header the
core reads (`retry-after`) is used as a number. -/
structure ResponseObject where
  status : Nat
  headers : List (String × Nat)
  data : Option String := none
deriving DecidableEq, Repr

/-- `isTemporaryError` (source lines 127-147): 5xx except 507, or a status in
the retryable map (408/429). -/
def isTemporaryError (response : ResponseObject) : Bool :=
  let statusCode := response.status
  if statusCode ≠ INSUFFICIENT_STORAGE ∧
      HTTP_STATUS_CODE_SERVER_ERROR_BLOCK_RANGE.1 ≤ statusCode ∧
      statusCode ≤ HTTP_STATUS_CODE_SERVER_ERROR_BLOCK_RANGE.2 then
    true
  else if retryableStatusCodes statusCode then
    true
  else
    false

/-- The request options held in `config.request`: url, method, headers,
optional query-string map, optional raw body, optional form map, and whether
a raw multi-part `formData` payload is present (JS truthiness of
`options.formData`). -/
structure RequestOptions where
  url : String
  method : String
  headers : List (String × String)
  qs : Option (List (String × String)) := none
  body : Option String := none
  form : Option (List (String × String)) := none
  formData : Bool := false
deriving DecidableEq, Repr

/-- `isRequestRetryable` (source lines 155-157): retryable iff no raw
`formData` payload. -/
def isRequestRetryable (options : RequestOptions) : Bool :=
  !options.formData

/-- The wire-level request built by `execute` and stored in `this.request`
(source lines 243-250).  `validateStatus` is the constant-true function in
the source and carries no data, so it is omitted. -/
structure AxiosRequestConfig where
  url : String
  method : String
  headers : List (String × String)
  data : String
  maxRedirects : Nat
deriving DecidableEq, Repr

/-- JS truthiness of a header value: present and nonempty. -/
def headerTruthy (headers : List (String × String)) (key : String) : Bool :=
  match headers.lookup key with
  | some v => v ≠ ""
  | none => false

/-- Overwrite the value stored at `key`. -/
def setHeader (headers : List (String × String)) (key value : String) :
    List (String × String) :=
  headers.map fun p => if p.1 = key then (p.1, value) else p

/-- `cleanSensitiveHeaders` (source lines 169-178): replace truthy `BoxApi`
and `Authorization` header values with the removal message.  NOTE: in the
current source this function is defined but its only call site
(`_handleResponse`, line 299) is commented out. -/
def cleanSensitiveHeaders (requestObj : AxiosRequestConfig) : AxiosRequestConfig :=
  let hs := requestObj.headers
  let hs := if headerTruthy hs "BoxApi" then
      setHeader hs "BoxApi" REMOVED_HEADER_MESSAGE else hs
  let hs := if headerTruthy hs "Authorization" then
      setHeader hs "Authorization" REMOVED_HEADER_MESSAGE else hs
  { requestObj with headers := hs }

/-- `qs.stringify`: `undefined` maps to the empty string. -/
def qsStringify : Option (List (String × String)) → String
  | none => ""
  | some params => String.intercalate "&" (params.map fun p => p.1 ++ "=" ++ p.2)

/-- The error object delivered through the callback (`APIRequest~Error`):
message plus the fields `_handleResponse` / `_retry` attach dynamically. -/
structure APIRequestError where
  message : String
  request : Option AxiosRequestConfig := none
  response : Option ResponseObject := none
  status : Option Nat := none
  maxRetriesExceeded : Bool := false
deriving DecidableEq, Repr

/-- The options record handed to a custom retry strategy
(source lines 366-372). -/
structure RetryOptions where
  error : APIRequestError
  numRetryAttempts : Nat
  numMaxRetries : Nat
  retryIntervalMS : Nat
  totalElapsedTimeMS : Nat

/-- The value returned by a custom retry strategy: a number of milliseconds,
an Error object, or anything else (non-numeric, non-Error). -/
inductive StrategyResult where
  | timeMS (t : Nat)
  | errorValue (e : APIRequestError)
  | otherValue
deriving DecidableEq

/-- The slice of `Config` this module reads: the request options, retry
counts and interval, and the optional custom retry strategy. -/
structure Config where
  request : RequestOptions
  numMaxRetries : Nat
  retryIntervalMS : Nat
  retryStrategy : Option (RetryOptions → StrategyResult) := none

/-- URL and request construction of `execute`, callback branch
(source lines 231-250): append the stringified query when present, pick
`body ?? qs.stringify(form)` as the data. -/
def buildRequest (cfg : Config) : AxiosRequestConfig :=
  let url := cfg.request.url ++
    (match cfg.request.qs with
     | some q => "?" ++ qsStringify (some q)
     | none => "")
  { url := url
    method := cfg.request.method
    headers := cfg.request.headers
    data := cfg.request.body.getD (qsStringify cfg.request.form)
    maxRedirects := 0 }

/-- The `isJWT` test of `_handleResponse` (source lines 321-329): the form
body exists and its `grant_type` is the JWT bearer grant urn. -/
def isJWT (options : RequestOptions) : Bool :=
  match options.form with
  | some form => form.lookup "grant_type" == some "urn:ietf:params:oauth:grant-type:jwt-bearer"
  | none => false

/-- Outcome of one axios attempt: the promise rejected with a transport
error, or resolved with a response (all statuses are valid, source line 249). -/
inductive AttemptOutcome where
  | transportError (message : String)
  | response (r : ResponseObject)
deriving DecidableEq

/-- Result of `_handleResponse`/`_retry` for one attempt: schedule another
attempt after a delay, finalize with an error, or finalize successfully.
The `Nat` carries the value of `this.numRetries` after the call. -/
inductive HandleResult where
  | scheduleRetry (delayMS : Nat) (numRetries : Nat)
  | finishError (e : APIRequestError) (numRetries : Nat)
  | finishSuccess (r : ResponseObject)
deriving DecidableEq

/-- `_retry` (source lines 353-402), as a function of the current
`numRetries`, the error, and the elapsed-time reading used for the
strategy's `totalElapsedTimeMS`.  `getRetryTimeout` is the external
exponential-backoff helper, abstract here. -/
def retryCtl (getRetryTimeout : Nat → Nat → Nat) (cfg : Config)
    (e : APIRequestError) (numRetries elapsedMS : Nat) : HandleResult :=
  if numRetries < cfg.numMaxRetries then
    let numRetries' := numRetries + 1
    match cfg.retryStrategy with
    | some strategy =>
      match strategy
        { error := e
          numRetryAttempts := numRetries'
          numMaxRetries := cfg.numMaxRetries
          retryIntervalMS := cfg.retryIntervalMS
          totalElapsedTimeMS := elapsedMS } with
      | .timeMS t => .scheduleRetry t numRetries'
      | .errorValue e2 => .finishError e2 numRetries'
      | .otherValue => .finishError e numRetries'
    | none =>
      match e.response with
      | some resp =>
        match resp.headers.lookup "retry-after" with
        | some v => .scheduleRetry (v * 1000) numRetries'
        | none => .scheduleRetry (getRetryTimeout numRetries' cfg.retryIntervalMS) numRetries'
      | none => .scheduleRetry (getRetryTimeout numRetries' cfg.retryIntervalMS) numRetries'
  else
    .finishError { e with maxRetriesExceeded := true } numRetries

/-- The error branch of `_handleResponse` (source lines 310-338): the
request info is already attached to `e`; retry when the instance is
retryable and the request is not a JWT grant, else finish with the error. -/
def errPath (getRetryTimeout : Nat → Nat → Nat) (cfg : Config)
    (numRetries elapsedMS : Nat) (e : APIRequestError) : HandleResult :=
  if isRequestRetryable cfg.request && !isJWT cfg.request then
    retryCtl getRetryTimeout cfg e numRetries elapsedMS
  else
    .finishError e numRetries

/-- `_handleResponse` (source lines 297-343).  NOTE: the source's call to
`cleanSensitiveHeaders(this.request!)` at line 299 is commented out, so the
request object is attached to the error without redaction.  A response that
classifies as a temporary error becomes an error with `request`, `response`
and `status` attached; a transport error gets only `request` attached. -/
def handleResponse (getRetryTimeout : Nat → Nat → Nat) (cfg : Config)
    (req : AxiosRequestConfig) (numRetries elapsedMS : Nat) :
    AttemptOutcome → HandleResult
  | .transportError m =>
    errPath getRetryTimeout cfg numRetries elapsedMS
      { message := m, request := some req }
  | .response r =>
    if isTemporaryError r then
      errPath getRetryTimeout cfg numRetries elapsedMS
        { message := toString r.status ++ " - " ++ httpStatusText r.status
          request := some req
          response := some r
          status := some r.status }
    else
      .finishSuccess r

/-- The error `_handleResponse` builds for an attempt outcome, `none` when
the outcome is a success.  Specification-side restatement of the error
construction inside `handleResponse`, connected to it by
`handleResponse_of_mk_some` / `handleResponse_of_mk_none`. -/
def mkAttemptError (req : AxiosRequestConfig) : AttemptOutcome → Option APIRequestError
  | .transportError m => some { message := m, request := some req }
  | .response r =>
    if isTemporaryError r then
      some { message := toString r.status ++ " - " ++ httpStatusText r.status
             request := some req
             response := some r
             status := some r.status }
    else none

/-- State of one callback-mode logical operation.  `attempting n` — an
attempt is in flight with `this.numRetries = n`; `scheduled` — a retry timer
is pending (`setTimeout(this.execute...)`, source line 397); `delivering` —
`_finish` has been called and the `process.nextTick` callback is pending
(source lines 412-422); `done` — the callback has fired.  Every state
carries the current value of `this.numRetries`. -/
inductive OpState where
  | attempting (numRetries : Nat)
  | scheduled (delayMS : Nat) (numRetries : Nat)
  | delivering (numRetries : Nat) (err : Option APIRequestError)
      (resp : Option ResponseObject)
  | done (numRetries : Nat) (err : Option APIRequestError)
      (resp : Option ResponseObject)
deriving DecidableEq, Repr

def OpState.isDone : OpState → Bool
  | .done _ _ _ => true
  | _ => false

def OpState.isDelivering : OpState → Bool
  | .delivering _ _ _ => true
  | _ => false

def OpState.isScheduled : OpState → Bool
  | .scheduled _ _ => true
  | _ => false

/-- `this.numRetries` in the given state. -/
def stateRetries : OpState → Nat
  | .attempting n => n
  | .scheduled _ n => n
  | .delivering n _ _ => n
  | .done n _ _ => n

section Machine

variable (getRetryTimeout : Nat → Nat → Nat) (cfg : Config)
variable (outcomes : Nat → AttemptOutcome) (elapsed : Nat → Nat)

/-- One scheduling step of a callback-mode operation.  The attempt made in
state `attempting n` is the `n`-th network attempt (each scheduled retry
increments `numRetries` exactly once), so its outcome is `outcomes n` and
the elapsed-time reading at its strategy call is `elapsed n`.  A pending
timer fires and re-invokes `execute`; a pending `nextTick` fires the
callback; `done` is terminal. -/
def step : OpState → OpState
  | .attempting n =>
    match handleResponse getRetryTimeout cfg (buildRequest cfg) n (elapsed n)
        (outcomes n) with
    | .scheduleRetry d n' => .scheduled d n'
    | .finishError e n' => .delivering n' (some e) none
    | .finishSuccess r => .delivering n none (some r)
  | .scheduled _ n => .attempting n
  | .delivering n e r => .done n e r
  | .done n e r => .done n e r

/-- `k` scheduling steps. -/
def run : Nat → OpState → OpState
  | 0, s => s
  | k + 1, s => step getRetryTimeout cfg outcomes elapsed (run k s)

end Machine

/-- Termination measure: number of scheduling steps remaining until `done`,
bounded using the retry-count invariant. -/
def opMeasure (cfg : Config) : OpState → Nat
  | .attempting n => 2 * (cfg.numMaxRetries - n) + 2
  | .scheduled _ n => 2 * (cfg.numMaxRetries - n) + 3
  | .delivering _ _ _ => 1
  | .done _ _ _ => 0

/-! Concrete fixtures used in the closed evaluations below. -/

/-- Backoff function used to instantiate the abstract `getRetryTimeout`
parameter in concrete evaluations. -/
def exGetRetryTimeout : Nat → Nat → Nat := fun numRetries intervalMS =>
  numRetries * intervalMS

/-- Elapsed-time oracle used in concrete evaluations. -/
def exElapsed : Nat → Nat := fun _ => 0

/-- Failing input for the header-redaction claim: a callback-mode request
carrying an Authorization bearer token and a BoxApi header (and a raw
`formData` body, so the failure finalizes on the first attempt), answered
with a 502. -/
def c1cfg : Config :=
  { request :=
      { url := "https://api.box.com/2.0/files/content"
        method := "POST"
        headers := [("Authorization", "Bearer SECRET"), ("BoxApi", "shared_link=xyz")]
        formData := true }
    numMaxRetries := 5
    retryIntervalMS := 1000 }

def c1out : Nat → AttemptOutcome := fun _ =>
  .response { status := 502, headers := [] }

/-- The error object the engine delivers for `c1cfg` under `c1out`. -/
def c1err : APIRequestError :=
  { message := "502 - Bad Gateway"
    request := some (buildRequest c1cfg)
    response := some { status := 502, headers := [] }
    status := some 502 }

def c3cfg : Config :=
  { request :=
      { url := "https://api.box.com/2.0/users/me"
        method := "GET"
        headers := [("Authorization", "Bearer token")] }
    numMaxRetries := 1
    retryIntervalMS := 1000 }

def c3out : Nat → AttemptOutcome := fun _ =>
  .response { status := 503, headers := [] }

def c5cfg : Config :=
  { request :=
      { url := "https://upload.box.com/api/2.0/files/content"
        method := "POST"
        headers := [("Authorization", "Bearer token")]
        formData := true }
    numMaxRetries := 5
    retryIntervalMS := 1000 }

def c5out : Nat → AttemptOutcome := fun _ =>
  .response { status := 502, headers := [] }

def c6cfg : Config :=
  { request :=
      { url := "https://api.box.com/oauth2/token"
        method := "POST"
        headers := []
        form := some [("grant_type", "urn:ietf:params:oauth:grant-type:jwt-bearer"),
                      ("assertion", "eyJhbGciOi.example.signature")] }
    numMaxRetries := 5
    retryIntervalMS := 1000 }

def c6out : Nat → AttemptOutcome := fun _ =>
  .response { status := 429, headers := [] }

def c7strategy : RetryOptions → StrategyResult := fun _ => .otherValue

def c7cfg : Config :=
  { request :=
      { url := "https://api.box.com/2.0/folders/0"
        method := "GET"
        headers := [("Authorization", "Bearer token")] }
    numMaxRetries := 3
    retryIntervalMS := 500
    retryStrategy := some c7strategy }

def c7err : APIRequestError := { message := "502 - Bad Gateway" }

def c8cfg : Config :=
  { request :=
      { url := "https://api.box.com/2.0/events"
        method := "GET"
        headers := [("Authorization", "Bearer token")] }
    numMaxRetries := 3
    retryIntervalMS := 500 }

def c8err : APIRequestError :=
  { message := "429 - Too Many Requests"
    response := some { status := 429, headers := [("retry-after", 7)] }
    status := some 429 }

def c9cfg : Config :=
  { request :=
      { url := "https://api.box.com/2.0/files/123"
        method := "GET"
        headers := [("Authorization", "Bearer token")] }
    numMaxRetries := 0
    retryIntervalMS := 1000 }

def c9out : Nat → AttemptOutcome := fun _ =>
  .response { status := 200, headers := [], data := some "ok" }

def c10cfg : Config :=
  { request :=
      { url := "https://api.box.com/2.0/users/me"
        method := "GET"
        headers := [("Authorization", "Bearer token")] }
    numMaxRetries := 1
    retryIntervalMS := 1000 }

def c10out : Nat → AttemptOutcome := fun _ =>
  .transportError "read ECONNRESET"


lemma retryCtl_scheduleRetry {getRetryTimeout : Nat → Nat → Nat} {cfg : Config}
    {e : APIRequestError} {n elapsedMS d n' : Nat}
    (h : retryCtl getRetryTimeout cfg e n elapsedMS = .scheduleRetry d n') :
    n < cfg.numMaxRetries ∧ n' = n + 1 := by
  unfold retryCtl at h
  split at h
  · rename_i hlt
    refine ⟨hlt, ?_⟩
    simp only [] at h
    split at h
    · split at h <;> simp_all
    · split at h
      · split at h <;> simp_all
      · simp_all
  · simp_all

lemma errPath_scheduleRetry {getRetryTimeout : Nat → Nat → Nat} {cfg : Config}
    {e : APIRequestError} {n elapsedMS d n' : Nat}
    (h : errPath getRetryTimeout cfg n elapsedMS e = .scheduleRetry d n') :
    (isRequestRetryable cfg.request && !isJWT cfg.request) = true ∧
      n < cfg.numMaxRetries ∧ n' = n + 1 := by
  unfold errPath at h
  split at h
  · rename_i hcond
    exact ⟨hcond, retryCtl_scheduleRetry h⟩
  · simp_all




lemma errPath_finishError {getRetryTimeout : Nat → Nat → Nat} {cfg : Config}
    {e e' : APIRequestError} {n elapsedMS n' : Nat}
    (h : errPath getRetryTimeout cfg n elapsedMS e = .finishError e' n') :
    n' = n ∨ (n < cfg.numMaxRetries ∧ n' = n + 1) := by
  unfold errPath retryCtl at h
  split at h
  · split at h
    · rename_i hlt
      simp only [] at h
      split at h
      · split at h <;> simp_all
      · split at h
        · split at h <;> simp_all
        · simp_all
    · simp_all
  · simp_all

lemma handleResponse_of_mk_some {getRetryTimeout : Nat → Nat → Nat} {cfg : Config}
    {req : AxiosRequestConfig} {n elapsedMS : Nat} {o : AttemptOutcome}
    {e : APIRequestError} (h : mkAttemptError req o = some e) :
    handleResponse getRetryTimeout cfg req n elapsedMS o =
      errPath getRetryTimeout cfg n elapsedMS e := by
  cases o with
  | transportError m =>
    simp only [mkAttemptError] at h
    simp only [handleResponse]
    injection h with h
    rw [h]
  | response r =>
    simp only [mkAttemptError] at h
    simp only [handleResponse]
    by_cases ht : isTemporaryError r = true
    · rw [if_pos ht] at h ⊢
      injection h with h
      rw [h]
    · rw [if_neg ht] at h
      cases h

lemma handleResponse_of_mk_none {getRetryTimeout : Nat → Nat → Nat} {cfg : Config}
    {req : AxiosRequestConfig} {n elapsedMS : Nat} {o : AttemptOutcome}
    (h : mkAttemptError req o = none) :
    ∃ r, o = .response r ∧ isTemporaryError r = false ∧
      handleResponse getRetryTimeout cfg req n elapsedMS o = .finishSuccess r := by
  cases o with
  | transportError m => cases h
  | response r =>
    simp only [mkAttemptError] at h
    by_cases ht : isTemporaryError r = true
    · rw [if_pos ht] at h
      cases h
    · refine ⟨r, rfl, by simpa using ht, ?_⟩
      simp only [handleResponse]
      rw [if_neg ht]

lemma handleResponse_scheduleRetry {getRetryTimeout : Nat → Nat → Nat} {cfg : Config}
    {req : AxiosRequestConfig} {n elapsedMS d n' : Nat} {o : AttemptOutcome}
    (h : handleResponse getRetryTimeout cfg req n elapsedMS o = .scheduleRetry d n') :
    (isRequestRetryable cfg.request && !isJWT cfg.request) = true ∧
      n < cfg.numMaxRetries ∧ n' = n + 1 := by
  cases hm : mkAttemptError req o with
  | some e =>
    rw [handleResponse_of_mk_some hm] at h
    exact errPath_scheduleRetry h
  | none =>
    obtain ⟨r, -, -, hr⟩ :=
      @handleResponse_of_mk_none getRetryTimeout cfg req n elapsedMS o hm
    rw [hr] at h
    cases h

lemma handleResponse_finishError {getRetryTimeout : Nat → Nat → Nat} {cfg : Config}
    {req : AxiosRequestConfig} {n elapsedMS n' : Nat} {o : AttemptOutcome}
    {e' : APIRequestError}
    (h : handleResponse getRetryTimeout cfg req n elapsedMS o = .finishError e' n') :
    n' = n ∨ (n < cfg.numMaxRetries ∧ n' = n + 1) := by
  cases hm : mkAttemptError req o with
  | some e =>
    rw [handleResponse_of_mk_some hm] at h
    exact errPath_finishError h
  | none =>
    obtain ⟨r, -, -, hr⟩ :=
      @handleResponse_of_mk_none getRetryTimeout cfg req n elapsedMS o hm
    rw [hr] at h
    cases h


section RunLemmas

variable (getRetryTimeout : Nat → Nat → Nat) (cfg : Config)
variable (outcomes : Nat → AttemptOutcome) (elapsed : Nat → Nat)

lemma run_shift (k : Nat) (s : OpState) :
    run getRetryTimeout cfg outcomes elapsed (k + 1) s =
      run getRetryTimeout cfg outcomes elapsed k
        (step getRetryTimeout cfg outcomes elapsed s) := by
  induction k generalizing s with
  | zero => rfl
  | succ k ih =>
    show step getRetryTimeout cfg outcomes elapsed
        (run getRetryTimeout cfg outcomes elapsed (k + 1) s) = _
    rw [ih]
    rfl

lemma run_add (a b : Nat) (s : OpState) :
    run getRetryTimeout cfg outcomes elapsed (a + b) s =
      run getRetryTimeout cfg outcomes elapsed a
        (run getRetryTimeout cfg outcomes elapsed b s) := by
  induction a with
  | zero =>
    rw [Nat.zero_add]
    rfl
  | succ a ih =>
    rw [Nat.succ_add]
    show step getRetryTimeout cfg outcomes elapsed
        (run getRetryTimeout cfg outcomes elapsed (a + b) s) = _
    rw [ih]
    rfl

lemma run_done (k n : Nat) (e : Option APIRequestError) (r : Option ResponseObject) :
    run getRetryTimeout cfg outcomes elapsed k (.done n e r) = .done n e r := by
  induction k with
  | zero => rfl
  | succ k ih =>
    show step getRetryTimeout cfg outcomes elapsed
        (run getRetryTimeout cfg outcomes elapsed k (.done n e r)) = _
    rw [ih]
    rfl

lemma isDone_elim {s : OpState} (h : s.isDone = true) :
    ∃ n e r, s = .done n e r := by
  cases s with
  | done n e r => exact ⟨n, e, r, rfl⟩
  | attempting n => cases h
  | scheduled d n => cases h
  | delivering n e r => cases h

lemma run_of_isDone {s : OpState} (h : s.isDone = true) (k : Nat) :
    run getRetryTimeout cfg outcomes elapsed k s = s := by
  obtain ⟨n, e, r, rfl⟩ := isDone_elim h
  exact run_done getRetryTimeout cfg outcomes elapsed k n e r

end RunLemmas

section MeasureLemmas

variable (getRetryTimeout : Nat → Nat → Nat) (cfg : Config)
variable (outcomes : Nat → AttemptOutcome) (elapsed : Nat → Nat)

lemma opMeasure_step {s : OpState} (h : s.isDone = false) :
    opMeasure cfg (step getRetryTimeout cfg outcomes elapsed s) < opMeasure cfg s := by
  cases s with
  | attempting n =>
    rcases hh : handleResponse getRetryTimeout cfg (buildRequest cfg) n (elapsed n)
        (outcomes n) with ⟨d, n2⟩ | ⟨e, n2⟩ | r
    · obtain ⟨-, hlt, rfl⟩ := handleResponse_scheduleRetry hh
      simp only [step, hh, opMeasure]
      omega
    · simp only [step, hh, opMeasure]
      omega
    · simp only [step, hh, opMeasure]
      omega
  | scheduled d n =>
    simp only [step, opMeasure]
    omega
  | delivering n e r =>
    simp only [step, opMeasure]
    omega
  | done n e r => cases h

lemma isDone_run_of_measure (k : Nat) :
    ∀ s : OpState, opMeasure cfg s ≤ k →
      (run getRetryTimeout cfg outcomes elapsed k s).isDone = true := by
  induction k with
  | zero =>
    intro s hs
    cases s with
    | done n e r => rfl
    | attempting n => simp [opMeasure] at hs
    | scheduled d n => simp [opMeasure] at hs
    | delivering n e r => simp [opMeasure] at hs
  | succ k ih =>
    intro s hs
    by_cases hd : s.isDone = true
    · rw [run_of_isDone getRetryTimeout cfg outcomes elapsed hd]
      exact hd
    · rw [run_shift]
      refine ih _ ?_
      have := opMeasure_step getRetryTimeout cfg outcomes elapsed
        (s := s) (by simpa using hd)
      omega

lemma isDone_run_attempting {N : Nat} (hN : 2 * cfg.numMaxRetries + 2 ≤ N) :
    (run getRetryTimeout cfg outcomes elapsed N (.attempting 0)).isDone = true := by
  refine isDone_run_of_measure getRetryTimeout cfg outcomes elapsed N _ ?_
  simp only [opMeasure]
  omega

end MeasureLemmas

section DeliveryLemmas

variable (getRetryTimeout : Nat → Nat → Nat) (cfg : Config)
variable (outcomes : Nat → AttemptOutcome) (elapsed : Nat → Nat)

/-- The only way to enter `done` is from `delivering` (the pending
`process.nextTick`): no state transitions to `done` directly from an
attempt or a timer. -/
lemma step_isDone_inv {s : OpState}
    (h : (step getRetryTimeout cfg outcomes elapsed s).isDone = true) :
    s.isDelivering = true ∨ s.isDone = true := by
  cases s with
  | attempting n =>
    rcases hh : handleResponse getRetryTimeout cfg (buildRequest cfg) n (elapsed n)
        (outcomes n) with ⟨d, n2⟩ | ⟨e, n2⟩ | r <;>
      simp [step, hh, OpState.isDone] at h
  | scheduled d n => simp [step, OpState.isDone] at h
  | delivering n e r => exact Or.inl rfl
  | done n e r => exact Or.inr rfl

/-- The callback fires exactly once: there is exactly one step index at
which the pending `nextTick` delivery turns into `done`. -/
lemma fires_exists_unique {N : Nat} (hN : 2 * cfg.numMaxRetries + 2 ≤ N) :
    ∃! i : Nat,
      (run getRetryTimeout cfg outcomes elapsed i (.attempting 0)).isDelivering = true ∧
      (run getRetryTimeout cfg outcomes elapsed (i + 1) (.attempting 0)).isDone = true := by
  have hdone : (run getRetryTimeout cfg outcomes elapsed N
      (.attempting 0)).isDone = true :=
    isDone_run_attempting getRetryTimeout cfg outcomes elapsed hN
  have hex : ∃ i, (run getRetryTimeout cfg outcomes elapsed i
      (.attempting 0)).isDone = true := ⟨N, hdone⟩
  classical
  let i0 := Nat.find hex
  have hi0 : (run getRetryTimeout cfg outcomes elapsed i0 (.attempting 0)).isDone = true :=
    Nat.find_spec hex
  have hmin : ∀ j, j < i0 →
      ¬(run getRetryTimeout cfg outcomes elapsed j (.attempting 0)).isDone = true :=
    fun j hj => Nat.find_min hex hj
  have hi0pos : i0 ≠ 0 := by
    intro h0
    rw [h0] at hi0
    cases hi0
  obtain ⟨j, hj⟩ : ∃ j, i0 = j + 1 := ⟨i0 - 1, by omega⟩
  have hjlt : j < i0 := by omega
  have hstepj : (step getRetryTimeout cfg outcomes elapsed
      (run getRetryTimeout cfg outcomes elapsed j (.attempting 0))).isDone = true := by
    have : run getRetryTimeout cfg outcomes elapsed (j + 1) (.attempting 0) =
        step getRetryTimeout cfg outcomes elapsed
          (run getRetryTimeout cfg outcomes elapsed j (.attempting 0)) := rfl
    rw [← this, ← hj]
    exact hi0
  have hdelj : (run getRetryTimeout cfg outcomes elapsed j
      (.attempting 0)).isDelivering = true := by
    rcases step_isDone_inv getRetryTimeout cfg outcomes elapsed hstepj with h | h
    · exact h
    · exact absurd h (hmin j hjlt)
  refine ⟨j, ⟨hdelj, by rw [← hj]; exact hi0⟩, ?_⟩
  intro j2 ⟨hdel2, hdone2⟩
  by_contra hne
  rcases Nat.lt_or_ge j2 j with hlt | hge
  · exact hmin (j2 + 1) (by omega) hdone2
  · have hgt : j < j2 := by omega
    have : run getRetryTimeout cfg outcomes elapsed j2 (.attempting 0) =
        run getRetryTimeout cfg outcomes elapsed (j2 - i0)
          (run getRetryTimeout cfg outcomes elapsed i0 (.attempting 0)) := by
      rw [← run_add]
      congr 1
      omega
    rw [run_of_isDone getRetryTimeout cfg outcomes elapsed hi0] at this
    rw [this] at hdel2
    obtain ⟨n, e, r, hdn⟩ := isDone_elim hi0
    rw [hdn] at hdel2
    cases hdel2

end DeliveryLemmas

section AllFailLemmas

variable (getRetryTimeout : Nat → Nat → Nat) (cfg : Config)
variable (outcomes : Nat → AttemptOutcome) (elapsed : Nat → Nat)

lemma retryCtl_schedules {e : APIRequestError} {n elapsedMS : Nat}
    (hs : cfg.retryStrategy = none) (hn : n < cfg.numMaxRetries) :
    ∃ d, retryCtl getRetryTimeout cfg e n elapsedMS = .scheduleRetry d (n + 1) := by
  unfold retryCtl
  rw [if_pos hn]
  simp only [hs]
  cases e.response with
  | none => exact ⟨getRetryTimeout (n + 1) cfg.retryIntervalMS, rfl⟩
  | some resp =>
    dsimp only
    cases resp.headers.lookup "retry-after" with
    | none => exact ⟨getRetryTimeout (n + 1) cfg.retryIntervalMS, rfl⟩
    | some v => exact ⟨v * 1000, rfl⟩

lemma step_attempting_finish_flag {n : Nat} (hn : ¬ n < cfg.numMaxRetries)
    {e : APIRequestError}
    (he : mkAttemptError (buildRequest cfg) (outcomes n) = some e)
    (hr : isRequestRetryable cfg.request = true) (hj : isJWT cfg.request = false) :
    step getRetryTimeout cfg outcomes elapsed (.attempting n) =
      .delivering n (some { e with maxRetriesExceeded := true }) none := by
  simp only [step]
  rw [handleResponse_of_mk_some he]
  unfold errPath
  rw [if_pos (by simp [hr, hj])]
  unfold retryCtl
  rw [if_neg hn]

lemma step_attempting_schedules {n : Nat} (hn : n < cfg.numMaxRetries)
    {e : APIRequestError}
    (he : mkAttemptError (buildRequest cfg) (outcomes n) = some e)
    (hr : isRequestRetryable cfg.request = true) (hj : isJWT cfg.request = false)
    (hs : cfg.retryStrategy = none) :
    ∃ d, step getRetryTimeout cfg outcomes elapsed (.attempting n) =
      .scheduled d (n + 1) := by
  obtain ⟨d, hd⟩ := @retryCtl_schedules getRetryTimeout cfg e n (elapsed n) hs hn
  refine ⟨d, ?_⟩
  simp only [step]
  rw [handleResponse_of_mk_some he]
  unfold errPath
  rw [if_pos (by simp [hr, hj])]
  rw [hd]

/-- When the request is retryable, not a JWT grant, no custom strategy is
set, and every attempt produces an error, the operation walks the full
retry ladder from `attempting n` and finishes with the final attempt's
error flagged `maxRetriesExceeded`. -/
lemma allFail_run
    (hr : isRequestRetryable cfg.request = true) (hj : isJWT cfg.request = false)
    (hs : cfg.retryStrategy = none)
    (hfail : ∀ k, (mkAttemptError (buildRequest cfg) (outcomes k)).isSome = true) :
    ∀ d n, n + d = cfg.numMaxRetries →
      ∀ eN, mkAttemptError (buildRequest cfg) (outcomes cfg.numMaxRetries) = some eN →
      run getRetryTimeout cfg outcomes elapsed (2 * d + 2) (.attempting n) =
        .done cfg.numMaxRetries (some { eN with maxRetriesExceeded := true }) none := by
  intro d
  induction d with
  | zero =>
    intro n hn eN heN
    have hn' : n = cfg.numMaxRetries := by omega
    rw [← hn'] at heN ⊢
    have h1 := step_attempting_finish_flag getRetryTimeout cfg outcomes elapsed
      (n := n) (by omega) heN hr hj
    show step getRetryTimeout cfg outcomes elapsed
      (run getRetryTimeout cfg outcomes elapsed 1 (.attempting n)) = _
    have h0 : run getRetryTimeout cfg outcomes elapsed 1 (.attempting n) =
        step getRetryTimeout cfg outcomes elapsed (.attempting n) := rfl
    rw [h0, h1]
    rfl
  | succ d ih =>
    intro n hn eN heN
    have hnlt : n < cfg.numMaxRetries := by omega
    obtain ⟨e, he⟩ := Option.isSome_iff_exists.mp (hfail n)
    obtain ⟨δ, hδ⟩ := step_attempting_schedules getRetryTimeout cfg outcomes elapsed
      hnlt he hr hj hs
    have h2 : run getRetryTimeout cfg outcomes elapsed 2 (.attempting n) =
        .attempting (n + 1) := by
      show step getRetryTimeout cfg outcomes elapsed
        (run getRetryTimeout cfg outcomes elapsed 1 (.attempting n)) = _
      have h0 : run getRetryTimeout cfg outcomes elapsed 1 (.attempting n) =
          step getRetryTimeout cfg outcomes elapsed (.attempting n) := rfl
      rw [h0, hδ]
      rfl
    have harith : 2 * (d + 1) + 2 = (2 * d + 2) + 2 := by omega
    rw [harith, run_add, h2]
    exact ih (n + 1) (by omega) eN heN

end AllFailLemmas

section InvariantLemmas

variable (getRetryTimeout : Nat → Nat → Nat) (cfg : Config)
variable (outcomes : Nat → AttemptOutcome) (elapsed : Nat → Nat)

/-- One step either leaves `this.numRetries` unchanged, or increments it by
one, and increments only from a value strictly below `numMaxRetries`. -/
lemma stateRetries_step (s : OpState) :
    stateRetries (step getRetryTimeout cfg outcomes elapsed s) = stateRetries s ∨
      (stateRetries s < cfg.numMaxRetries ∧
        stateRetries (step getRetryTimeout cfg outcomes elapsed s) =
          stateRetries s + 1) := by
  cases s with
  | attempting n =>
    rcases hh : handleResponse getRetryTimeout cfg (buildRequest cfg) n (elapsed n)
        (outcomes n) with ⟨d, n2⟩ | ⟨e, n2⟩ | r
    · obtain ⟨-, hlt, rfl⟩ := handleResponse_scheduleRetry hh
      right
      exact ⟨hlt, by simp [step, hh, stateRetries]⟩
    · rcases handleResponse_finishError hh with h | ⟨hlt, h⟩
      · left
        simp [step, hh, stateRetries, h]
      · right
        exact ⟨hlt, by simp [step, hh, stateRetries, h]⟩
    · left
      simp [step, hh, stateRetries]
  | scheduled d n => left; rfl
  | delivering n e r => left; rfl
  | done n e r => left; rfl

/-- In every reachable state of an operation, `this.numRetries` is at most
`config.numMaxRetries`. -/
lemma stateRetries_run_le (k : Nat) :
    stateRetries (run getRetryTimeout cfg outcomes elapsed k (.attempting 0)) ≤
      cfg.numMaxRetries := by
  induction k with
  | zero => exact Nat.zero_le _
  | succ k ih =>
    show stateRetries (step getRetryTimeout cfg outcomes elapsed
      (run getRetryTimeout cfg outcomes elapsed k (.attempting 0))) ≤ _
    rcases stateRetries_step getRetryTimeout cfg outcomes elapsed
        (run getRetryTimeout cfg outcomes elapsed k (.attempting 0)) with h | ⟨hlt, h⟩
    · rw [h]; exact ih
    · rw [h]; omega

/-- When the retryability/JWT guard is false, the error branch finishes
immediately with the unchanged error and retry count. -/
lemma errPath_not_retryable {n elapsedMS : Nat} {e : APIRequestError}
    (h : (isRequestRetryable cfg.request && !isJWT cfg.request) = false) :
    errPath getRetryTimeout cfg n elapsedMS e = .finishError e n := by
  simp [errPath, h]

/-- When the retryability/JWT guard is false, no step ever schedules a
retry timer. -/
lemma step_not_scheduled
    (h : (isRequestRetryable cfg.request && !isJWT cfg.request) = false)
    (s : OpState) :
    (step getRetryTimeout cfg outcomes elapsed s).isScheduled = false := by
  cases s with
  | attempting n =>
    rcases hh : handleResponse getRetryTimeout cfg (buildRequest cfg) n (elapsed n)
        (outcomes n) with ⟨d, n2⟩ | ⟨e, n2⟩ | r
    · obtain ⟨hc, -, -⟩ := handleResponse_scheduleRetry hh
      rw [hc] at h
      cases h
    · simp [step, hh, OpState.isScheduled]
    · simp [step, hh, OpState.isScheduled]
  | scheduled d n => rfl
  | delivering n e r => rfl
  | done n e r => rfl

lemma run_not_scheduled
    (h : (isRequestRetryable cfg.request && !isJWT cfg.request) = false)
    (k : Nat) :
    (run getRetryTimeout cfg outcomes elapsed k (.attempting 0)).isScheduled = false := by
  cases k with
  | zero => rfl
  | succ k =>
    exact step_not_scheduled getRetryTimeout cfg outcomes elapsed h _

end InvariantLemmas

/-- Claim C2: `isTemporaryError` returns true exactly when the status code
is in [500,599] and not 507, or is exactly 408 or exactly 429; for 507 and
every other status code (including all other 4xx) it returns false. -/
theorem claim_C2_isTemporaryError_characterization (r : ResponseObject) :
    isTemporaryError r = true ↔
      ((500 ≤ r.status ∧ r.status ≤ 599 ∧ r.status ≠ 507) ∨
        r.status = 408 ∨ r.status = 429) := by
  unfold isTemporaryError retryableStatusCodes
  simp only [INSUFFICIENT_STORAGE, REQUEST_TIMEOUT, TOO_MANY_REQUESTS,
    HTTP_STATUS_CODE_SERVER_ERROR_BLOCK_RANGE]
  by_cases h1 : r.status ≠ 507 ∧ 500 ≤ r.status ∧ r.status ≤ 599
  · rw [if_pos h1]
    exact iff_of_true rfl (Or.inl ⟨h1.2.1, h1.2.2, h1.1⟩)
  · rw [if_neg h1]
    by_cases h2 : (r.status == 408 || r.status == 429) = true
    · rw [if_pos h2]
      simp only [beq_iff_eq, Bool.or_eq_true] at h2
      exact iff_of_true rfl (Or.inr h2)
    · rw [if_neg h2]
      simp only [beq_iff_eq, Bool.or_eq_true] at h2
      refine iff_of_false (by decide) ?_
      intro hcon
      rcases hcon with ⟨ha, hb, hc⟩ | h | h
      · exact h1 ⟨hc, ha, hb⟩
      · exact h2 (Or.inl h)
      · exact h2 (Or.inr h)

/-- Claim C4: in every reachable state of an operation, the retry count
never exceeds `config.numMaxRetries`, and a step changes the count only by
incrementing it from a value strictly below the maximum. -/
theorem claim_C4_numRetries_bounded (getRetryTimeout : Nat → Nat → Nat)
    (cfg : Config) (outcomes : Nat → AttemptOutcome) (elapsed : Nat → Nat) :
    (∀ k, stateRetries (run getRetryTimeout cfg outcomes elapsed k
        (.attempting 0)) ≤ cfg.numMaxRetries) ∧
    (∀ s : OpState,
        stateRetries (step getRetryTimeout cfg outcomes elapsed s) = stateRetries s ∨
          (stateRetries s < cfg.numMaxRetries ∧
            stateRetries (step getRetryTimeout cfg outcomes elapsed s) =
              stateRetries s + 1)) :=
  ⟨fun k => stateRetries_run_le getRetryTimeout cfg outcomes elapsed k,
   fun s => stateRetries_step getRetryTimeout cfg outcomes elapsed s⟩

/-- Claim C9: every callback-mode operation reaches a terminal `done` state,
the completion callback fires exactly once (one transition from a pending
`nextTick` delivery into `done`), and delivery is always deferred: no state
transitions into `done` except from the pending-delivery state. -/
theorem claim_C9_exactly_once_async_delivery (getRetryTimeout : Nat → Nat → Nat)
    (cfg : Config) (outcomes : Nat → AttemptOutcome) (elapsed : Nat → Nat)
    (N : Nat) (hN : 2 * cfg.numMaxRetries + 2 ≤ N) :
    (run getRetryTimeout cfg outcomes elapsed N (.attempting 0)).isDone = true ∧
    (∃! i : Nat,
      (run getRetryTimeout cfg outcomes elapsed i (.attempting 0)).isDelivering = true ∧
      (run getRetryTimeout cfg outcomes elapsed (i + 1) (.attempting 0)).isDone = true) ∧
    (∀ s : OpState, (step getRetryTimeout cfg outcomes elapsed s).isDone = true →
        s.isDelivering = true ∨ s.isDone = true) :=
  ⟨isDone_run_attempting getRetryTimeout cfg outcomes elapsed hN,
   fires_exists_unique getRetryTimeout cfg outcomes elapsed hN,
   fun _ h => step_isDone_inv getRetryTimeout cfg outcomes elapsed h⟩

section AllFailClaims

variable (getRetryTimeout : Nat → Nat → Nat) (cfg : Config)
variable (outcomes : Nat → AttemptOutcome) (elapsed : Nat → Nat)

lemma allFail_run_N
    (hretry : isRequestRetryable cfg.request = true) (hjwt : isJWT cfg.request = false)
    (hstrat : cfg.retryStrategy = none)
    (hfail : ∀ k, (mkAttemptError (buildRequest cfg) (outcomes k)).isSome = true)
    {eN : APIRequestError}
    (heN : mkAttemptError (buildRequest cfg) (outcomes cfg.numMaxRetries) = some eN)
    {N : Nat} (hN : 2 * cfg.numMaxRetries + 2 ≤ N) :
    run getRetryTimeout cfg outcomes elapsed N (.attempting 0) =
      .done cfg.numMaxRetries (some { eN with maxRetriesExceeded := true }) none := by
  have h1 := allFail_run getRetryTimeout cfg outcomes elapsed hretry hjwt hstrat hfail
    cfg.numMaxRetries 0 (by omega) eN heN
  have hsplit : N = (N - (2 * cfg.numMaxRetries + 2)) + (2 * cfg.numMaxRetries + 2) := by
    omega
  rw [hsplit, run_add, h1, run_done]

/-- Claim C3: when every attempt fails retryably (retryable request, not a
JWT grant, no custom strategy, every outcome an error), the operation ends
in `done` carrying the last attempt's error flagged `maxRetriesExceeded`,
stays there (no further attempt), and the callback fires exactly once. -/
theorem claim_C3_retries_exhausted_finalization
    (hretry : isRequestRetryable cfg.request = true) (hjwt : isJWT cfg.request = false)
    (hstrat : cfg.retryStrategy = none)
    (hfail : ∀ k, (mkAttemptError (buildRequest cfg) (outcomes k)).isSome = true)
    (N : Nat) (hN : 2 * cfg.numMaxRetries + 2 ≤ N) :
    (∃ eN, mkAttemptError (buildRequest cfg) (outcomes cfg.numMaxRetries) = some eN ∧
      run getRetryTimeout cfg outcomes elapsed N (.attempting 0) =
        .done cfg.numMaxRetries (some { eN with maxRetriesExceeded := true }) none ∧
      ∀ k, N ≤ k →
        run getRetryTimeout cfg outcomes elapsed k (.attempting 0) =
          run getRetryTimeout cfg outcomes elapsed N (.attempting 0)) ∧
    (∃! i : Nat,
      (run getRetryTimeout cfg outcomes elapsed i (.attempting 0)).isDelivering = true ∧
      (run getRetryTimeout cfg outcomes elapsed (i + 1) (.attempting 0)).isDone = true) := by
  obtain ⟨eN, heN⟩ := Option.isSome_iff_exists.mp (hfail cfg.numMaxRetries)
  have hrunN := allFail_run_N getRetryTimeout cfg outcomes elapsed
    hretry hjwt hstrat hfail heN hN
  refine ⟨⟨eN, heN, hrunN, ?_⟩, fires_exists_unique getRetryTimeout cfg outcomes elapsed hN⟩
  intro k hk
  have hsplit : k = (k - N) + N := by omega
  rw [hsplit, run_add, hrunN, run_done]

end AllFailClaims

section EligibilityClaims

variable (getRetryTimeout : Nat → Nat → Nat) (cfg : Config)
variable (outcomes : Nat → AttemptOutcome) (elapsed : Nat → Nat)

/-- Claim C5: a request carrying a raw multi-part `formData` body is never
retried: every failing outcome is finalized immediately as an error with
the unchanged retry count, and no state of the operation ever has a retry
timer scheduled. -/
theorem claim_C5_formData_never_retried (hfd : cfg.request.formData = true) :
    (∀ (n elapsedMS : Nat) (e : APIRequestError) (o : AttemptOutcome),
        mkAttemptError (buildRequest cfg) o = some e →
        handleResponse getRetryTimeout cfg (buildRequest cfg) n elapsedMS o =
          .finishError e n) ∧
    (∀ k, (run getRetryTimeout cfg outcomes elapsed k
        (.attempting 0)).isScheduled = false) := by
  have hcond : (isRequestRetryable cfg.request && !isJWT cfg.request) = false := by
    simp [isRequestRetryable, hfd]
  constructor
  · intro n elapsedMS e o ho
    rw [handleResponse_of_mk_some ho]
    exact errPath_not_retryable getRetryTimeout cfg hcond
  · exact run_not_scheduled getRetryTimeout cfg outcomes elapsed hcond

/-- Claim C6: a request whose form body is a JWT bearer grant is never
retried: every failing outcome is finalized immediately as an error with
the unchanged retry count, and no state of the operation ever has a retry
timer scheduled. -/
theorem claim_C6_jwt_never_retried (hjwt : isJWT cfg.request = true) :
    (∀ (n elapsedMS : Nat) (e : APIRequestError) (o : AttemptOutcome),
        mkAttemptError (buildRequest cfg) o = some e →
        handleResponse getRetryTimeout cfg (buildRequest cfg) n elapsedMS o =
          .finishError e n) ∧
    (∀ k, (run getRetryTimeout cfg outcomes elapsed k
        (.attempting 0)).isScheduled = false) := by
  have hcond : (isRequestRetryable cfg.request && !isJWT cfg.request) = false := by
    simp [hjwt]
  constructor
  · intro n elapsedMS e o ho
    rw [handleResponse_of_mk_some ho]
    exact errPath_not_retryable getRetryTimeout cfg hcond
  · exact run_not_scheduled getRetryTimeout cfg outcomes elapsed hcond

end EligibilityClaims

/-- Claim C7: when a custom retry strategy is configured and, on a retryable
failure with attempts remaining, returns a non-numeric value, `_retry`
finalizes immediately as an error instead of scheduling: the strategy's own
Error replaces the original error when supplied, otherwise the original
error is delivered. -/
theorem claim_C7_strategy_non_numeric_finalizes
    (getRetryTimeout : Nat → Nat → Nat) (cfg : Config)
    (strategy : RetryOptions → StrategyResult) (e : APIRequestError)
    (n elapsedMS : Nat)
    (hs : cfg.retryStrategy = some strategy) (hn : n < cfg.numMaxRetries) :
    (strategy
        { error := e
          numRetryAttempts := n + 1
          numMaxRetries := cfg.numMaxRetries
          retryIntervalMS := cfg.retryIntervalMS
          totalElapsedTimeMS := elapsedMS } = .otherValue →
      retryCtl getRetryTimeout cfg e n elapsedMS = .finishError e (n + 1)) ∧
    (∀ e2, strategy
        { error := e
          numRetryAttempts := n + 1
          numMaxRetries := cfg.numMaxRetries
          retryIntervalMS := cfg.retryIntervalMS
          totalElapsedTimeMS := elapsedMS } = .errorValue e2 →
      retryCtl getRetryTimeout cfg e n elapsedMS = .finishError e2 (n + 1)) := by
  constructor
  · intro hres
    unfold retryCtl
    rw [if_pos hn]
    simp only [hs]
    rw [hres]
  · intro e2 hres
    unfold retryCtl
    rw [if_pos hn]
    simp only [hs]
    rw [hres]

/-- Claim C8: on a retryable failure with attempts remaining and no custom
strategy, a `retry-after` response header fixes the delay to its value times
1000 (seconds to milliseconds); the default exponential backoff
(`getRetryTimeout`) is used only when the header (or the response) is
absent. -/
theorem claim_C8_retry_after_header_honored
    (getRetryTimeout : Nat → Nat → Nat) (cfg : Config)
    (e : APIRequestError) (n elapsedMS : Nat)
    (hs : cfg.retryStrategy = none) (hn : n < cfg.numMaxRetries) :
    (∀ resp v, e.response = some resp →
        resp.headers.lookup "retry-after" = some v →
        retryCtl getRetryTimeout cfg e n elapsedMS =
          .scheduleRetry (v * 1000) (n + 1)) ∧
    (∀ resp, e.response = some resp →
        resp.headers.lookup "retry-after" = none →
        retryCtl getRetryTimeout cfg e n elapsedMS =
          .scheduleRetry (getRetryTimeout (n + 1) cfg.retryIntervalMS) (n + 1)) ∧
    (e.response = none →
        retryCtl getRetryTimeout cfg e n elapsedMS =
          .scheduleRetry (getRetryTimeout (n + 1) cfg.retryIntervalMS) (n + 1)) := by
  refine ⟨?_, ?_, ?_⟩
  · intro resp v hresp hv
    unfold retryCtl
    rw [if_pos hn]
    simp only [hs, hresp]
    rw [hv]
  · intro resp hresp hv
    unfold retryCtl
    rw [if_pos hn]
    simp only [hs, hresp]
    rw [hv]
  · intro hresp
    unfold retryCtl
    rw [if_pos hn]
    simp only [hs, hresp]

/-- Claim C10: a transport-level failure (no response obtained) produces an
error carrying the request but neither a `response` nor a `status` field;
those fields are attached exactly when a response exists.  When every
attempt is a transport failure, the error finally delivered still carries
the request and no response/status. -/
theorem claim_C10_transport_error_shape
    (getRetryTimeout : Nat → Nat → Nat) (cfg : Config)
    (outcomes : Nat → AttemptOutcome) (elapsed : Nat → Nat)
    (hretry : isRequestRetryable cfg.request = true) (hjwt : isJWT cfg.request = false)
    (hstrat : cfg.retryStrategy = none)
    (htrans : ∀ k, ∃ m, outcomes k = .transportError m)
    (N : Nat) (hN : 2 * cfg.numMaxRetries + 2 ≤ N) :
    (∀ (req : AxiosRequestConfig) (m : String),
        mkAttemptError req (.transportError m) =
          some { message := m, request := some req, response := none,
                 status := none, maxRetriesExceeded := false }) ∧
    (∀ (req : AxiosRequestConfig) (r : ResponseObject), isTemporaryError r = true →
        ∃ e, mkAttemptError req (.response r) = some e ∧
          e.response = some r ∧ e.status = some r.status) ∧
    (∃ e, run getRetryTimeout cfg outcomes elapsed N (.attempting 0) =
        .done cfg.numMaxRetries (some e) none ∧
      e.request = some (buildRequest cfg) ∧ e.response = none ∧ e.status = none) := by
  refine ⟨fun req m => rfl, ?_, ?_⟩
  · intro req r hr
    refine ⟨{ message := toString r.status ++ " - " ++ httpStatusText r.status
              request := some req
              response := some r
              status := some r.status }, ?_, rfl, rfl⟩
    simp only [mkAttemptError]
    rw [if_pos hr]
  · obtain ⟨m, hm⟩ := htrans cfg.numMaxRetries
    have heN : mkAttemptError (buildRequest cfg) (outcomes cfg.numMaxRetries) =
        some { message := m, request := some (buildRequest cfg) } := by
      rw [hm]
      rfl
    have hfail : ∀ k, (mkAttemptError (buildRequest cfg) (outcomes k)).isSome = true := by
      intro k
      obtain ⟨mk, hmk⟩ := htrans k
      rw [hmk]
      rfl
    refine ⟨_, allFail_run_N getRetryTimeout cfg outcomes elapsed
      hretry hjwt hstrat hfail heN hN, rfl, rfl, rfl⟩

/-- Claim C1, refuted on the code: the delivered error's attached request
still carries the raw `Authorization` and `BoxApi` header values, because
the `cleanSensitiveHeaders(this.request!)` call in `_handleResponse`
(source line 299) is commented out; `cleanSensitiveHeaders` itself (defined
but never called) would have replaced both values with the redaction
placeholder. -/
theorem claim_C1_headers_delivered_unredacted :
    run exGetRetryTimeout c1cfg c1out exElapsed 2 (.attempting 0) =
      .done 0 (some c1err) none ∧
    c1err.request = some (buildRequest c1cfg) ∧
    (buildRequest c1cfg).headers.lookup "Authorization" = some "Bearer SECRET" ∧
    (buildRequest c1cfg).headers.lookup "BoxApi" = some "shared_link=xyz" ∧
    (cleanSensitiveHeaders (buildRequest c1cfg)).headers.lookup "Authorization" =
      some REMOVED_HEADER_MESSAGE ∧
    (cleanSensitiveHeaders (buildRequest c1cfg)).headers.lookup "BoxApi" =
      some REMOVED_HEADER_MESSAGE ∧
    some "Bearer SECRET" ≠ some REMOVED_HEADER_MESSAGE := by
  exact ⟨by decide, by decide, by decide, by decide, by decide, by decide, by decide⟩

theorem claim_C3_witness :
    2 * c3cfg.numMaxRetries + 2 ≤ 4 ∧
    ((∃ eN, mkAttemptError (buildRequest c3cfg) (c3out c3cfg.numMaxRetries) = some eN ∧
        run exGetRetryTimeout c3cfg c3out exElapsed 4 (.attempting 0) =
          .done c3cfg.numMaxRetries (some { eN with maxRetriesExceeded := true }) none ∧
        ∀ k, 4 ≤ k →
          run exGetRetryTimeout c3cfg c3out exElapsed k (.attempting 0) =
            run exGetRetryTimeout c3cfg c3out exElapsed 4 (.attempting 0)) ∧
      (∃! i : Nat,
        (run exGetRetryTimeout c3cfg c3out exElapsed i (.attempting 0)).isDelivering = true ∧
        (run exGetRetryTimeout c3cfg c3out exElapsed (i + 1) (.attempting 0)).isDone = true)) :=
  ⟨by decide,
   claim_C3_retries_exhausted_finalization exGetRetryTimeout c3cfg c3out exElapsed
     (by decide) (by decide) rfl (fun k => rfl) 4 (by decide)⟩

theorem claim_C5_witness :
    c5cfg.request.formData = true ∧
    ((∀ (n elapsedMS : Nat) (e : APIRequestError) (o : AttemptOutcome),
        mkAttemptError (buildRequest c5cfg) o = some e →
        handleResponse exGetRetryTimeout c5cfg (buildRequest c5cfg) n elapsedMS o =
          .finishError e n) ∧
      (∀ k, (run exGetRetryTimeout c5cfg c5out exElapsed k
          (.attempting 0)).isScheduled = false)) :=
  ⟨rfl, claim_C5_formData_never_retried exGetRetryTimeout c5cfg c5out exElapsed rfl⟩

theorem claim_C6_witness :
    isJWT c6cfg.request = true ∧
    ((∀ (n elapsedMS : Nat) (e : APIRequestError) (o : AttemptOutcome),
        mkAttemptError (buildRequest c6cfg) o = some e →
        handleResponse exGetRetryTimeout c6cfg (buildRequest c6cfg) n elapsedMS o =
          .finishError e n) ∧
      (∀ k, (run exGetRetryTimeout c6cfg c6out exElapsed k
          (.attempting 0)).isScheduled = false)) :=
  ⟨by decide, claim_C6_jwt_never_retried exGetRetryTimeout c6cfg c6out exElapsed (by decide)⟩

theorem claim_C7_witness :
    c7cfg.retryStrategy = some c7strategy ∧
    0 < c7cfg.numMaxRetries ∧
    ((c7strategy
        { error := c7err
          numRetryAttempts := 0 + 1
          numMaxRetries := c7cfg.numMaxRetries
          retryIntervalMS := c7cfg.retryIntervalMS
          totalElapsedTimeMS := 0 } = .otherValue →
      retryCtl exGetRetryTimeout c7cfg c7err 0 0 = .finishError c7err (0 + 1)) ∧
    (∀ e2, c7strategy
        { error := c7err
          numRetryAttempts := 0 + 1
          numMaxRetries := c7cfg.numMaxRetries
          retryIntervalMS := c7cfg.retryIntervalMS
          totalElapsedTimeMS := 0 } = .errorValue e2 →
      retryCtl exGetRetryTimeout c7cfg c7err 0 0 = .finishError e2 (0 + 1))) :=
  ⟨rfl, by decide,
   claim_C7_strategy_non_numeric_finalizes exGetRetryTimeout c7cfg c7strategy c7err 0 0
     rfl (by decide)⟩

theorem claim_C8_witness :
    c8cfg.retryStrategy = none ∧
    0 < c8cfg.numMaxRetries ∧
    ((∀ resp v, c8err.response = some resp →
        resp.headers.lookup "retry-after" = some v →
        retryCtl exGetRetryTimeout c8cfg c8err 0 0 =
          .scheduleRetry (v * 1000) (0 + 1)) ∧
    (∀ resp, c8err.response = some resp →
        resp.headers.lookup "retry-after" = none →
        retryCtl exGetRetryTimeout c8cfg c8err 0 0 =
          .scheduleRetry (exGetRetryTimeout (0 + 1) c8cfg.retryIntervalMS) (0 + 1)) ∧
    (c8err.response = none →
        retryCtl exGetRetryTimeout c8cfg c8err 0 0 =
          .scheduleRetry (exGetRetryTimeout (0 + 1) c8cfg.retryIntervalMS) (0 + 1))) :=
  ⟨rfl, by decide,
   claim_C8_retry_after_header_honored exGetRetryTimeout c8cfg c8err 0 0 rfl (by decide)⟩

theorem claim_C9_witness :
    2 * c9cfg.numMaxRetries + 2 ≤ 2 ∧
    ((run exGetRetryTimeout c9cfg c9out exElapsed 2 (.attempting 0)).isDone = true ∧
    (∃! i : Nat,
      (run exGetRetryTimeout c9cfg c9out exElapsed i (.attempting 0)).isDelivering = true ∧
      (run exGetRetryTimeout c9cfg c9out exElapsed (i + 1) (.attempting 0)).isDone = true) ∧
    (∀ s : OpState,
        (step exGetRetryTimeout c9cfg c9out exElapsed s).isDone = true →
        s.isDelivering = true ∨ s.isDone = true)) :=
  ⟨by decide,
   claim_C9_exactly_once_async_delivery exGetRetryTimeout c9cfg c9out exElapsed 2 (by decide)⟩

theorem claim_C10_witness :
    isRequestRetryable c10cfg.request = true ∧
    (∀ k, ∃ m, c10out k = .transportError m) ∧
    2 * c10cfg.numMaxRetries + 2 ≤ 4 ∧
    ((∀ (req : AxiosRequestConfig) (m : String),
        mkAttemptError req (.transportError m) =
          some { message := m, request := some req, response := none,
                 status := none, maxRetriesExceeded := false }) ∧
    (∀ (req : AxiosRequestConfig) (r : ResponseObject), isTemporaryError r = true →
        ∃ e, mkAttemptError req (.response r) = some e ∧
          e.response = some r ∧ e.status = some r.status) ∧
    (∃ e, run exGetRetryTimeout c10cfg c10out exElapsed 4 (.attempting 0) =
        .done c10cfg.numMaxRetries (some e) none ∧
      e.request = some (buildRequest c10cfg) ∧ e.response = none ∧ e.status = none)) :=
  ⟨by decide, fun k => ⟨"read ECONNRESET", rfl⟩, by decide,
   claim_C10_transport_error_shape exGetRetryTimeout c10cfg c10out exElapsed
     (by decide) (by decide) rfl (fun k => ⟨"read ECONNRESET", rfl⟩) 4 (by decide)⟩

end ApiRequest
